import Mathlib

/-!
Verification of the TIDAL module (`interface.py`) of orpheusdl-tidal.

The development shallowly embeds the pieces of `interface.py` that the
frozen claims are about:

* `parse_mpd` (lines 1000-1059): the MPD manifest parser.  XML documents
  are represented after tag lookup as an element tree (`MPD`, `Period`,
  `AdaptationSet`, `Representation`, `SegTemplate`, `SEntry` mirror the
  tags and attributes the source reads with `findall`/`get`).
* the format/session resolution part of `get_track_info`
  (lines 826-857): `selectFormat`, `sessionTable`, `chosenSession`,
  `resolve`, together with the tier table `quality_parse`
  (lines 122-129).
* the stream fetch / post-fetch fallback / region-lock section of
  `get_track_info` (lines 859-907): `streamSection`, with the backend
  call `get_stream_url` passed in as a function argument and the
  external `codec_data` table (from `utils.models`, not part of this
  repository) passed in as a `String → CodecData` argument.
* `get_track_download` (lines 1061-1120): the segment assembly and
  remux step, with the file-system effects made explicit (which file
  paths are handed to `silentremove`, whether a warning is printed).

Python string primitives used by the source (`str.upper`,
`str.startswith`, `in`, `str.replace`) are embedded as structural
char-list functions (`strUpper`, `strStartsWith`, `strContains`,
`strReplace`) so that every definition evaluates inside the kernel.
-/

namespace Tidal

/-! ### Python string primitives -/

/-- `s.upper()` for the ASCII strings the source deals in
(`Char.toUpper` is exactly the ASCII upcase). -/
def strUpper (s : String) : String := ⟨s.data.map Char.toUpper⟩

/-- `s.startswith(pat)`. -/
def strStartsWith (s pat : String) : Bool := pat.data.isPrefixOf s.data

/-- Helper for `strContains`: does `pat` occur in the char list? -/
def strContainsAux (pat : List Char) : List Char → Bool
  | [] => pat.isPrefixOf []
  | c :: rest => pat.isPrefixOf (c :: rest) || strContainsAux pat rest

/-- Python's `pat in s` substring test. -/
def strContains (s pat : String) : Bool := strContainsAux pat.data s.data

/-- Helper for `strReplace`: replace non-overlapping occurrences left to
right; `fuel` bounds the recursion (call sites use `s.length`, enough
because every step consumes at least one character of `s` when the
pattern is non-empty, which it always is in the source). -/
def strReplaceAux (pat rep : List Char) : Nat → List Char → List Char
  | _, [] => []
  | 0, s => s
  | fuel + 1, c :: rest =>
    if pat ≠ [] ∧ pat.isPrefixOf (c :: rest) then
      rep ++ strReplaceAux pat rep fuel ((c :: rest).drop pat.length)
    else
      c :: strReplaceAux pat rep fuel rest

/-- `s.replace(pat, rep)`: Python's non-overlapping left-to-right
replacement of every occurrence. -/
def strReplace (s pat rep : String) : String :=
  ⟨strReplaceAux pat.data rep.data s.data.length s.data⟩

/-! ### Data model

`QualityEnum` and `SessionType` come from `utils.models` / `tidal_api`;
only the constructors the module uses are needed. -/

inductive QualityEnum where
  | MINIMUM | LOW | MEDIUM | HIGH | LOSSLESS | HIFI
deriving DecidableEq

inductive SessionType where
  | TV | MOBILE_DEFAULT | MOBILE_ATMOS
deriving DecidableEq

/-- `SessionType.name` as used in `session.name in self.available_sessions`. -/
def SessionType.name : SessionType → String
  | .TV => "TV"
  | .MOBILE_DEFAULT => "MOBILE_DEFAULT"
  | .MOBILE_ATMOS => "MOBILE_ATMOS"

/-- The values the local variable `format` ranges over in
`get_track_info` (source uses the strings `'360ra'`, `'ac4'`, `'ac3'`,
`'flac_hires'`; `r360ra` stands for `'360ra'`, which is not a legal Lean
identifier).  `format = None` is `Option.none` at use sites. -/
inductive TFormat where
  | r360ra | ac4 | ac3 | flac_hires
deriving DecidableEq

/-- `AudioTrack` dataclass (lines 104-109).  `codec` holds the
normalized codec name string that the source passes to the external
`CodecEnum[...]` lookup. -/
structure AudioTrack where
  codec : String
  sample_rate : Nat
  bitrate : Nat
  urls : List String
deriving DecidableEq

/-- One `<S>` element of a `SegmentTimeline`: attributes `t`, `r`, `d`
(absent attribute = `none`; `d` is always read with `int(s.get('d'))`,
so it is required). -/
structure SEntry where
  t : Option Int
  r : Option Nat
  d : Int
deriving DecidableEq

/-- A `<SegmentTemplate>` element with the attributes the source reads. -/
structure SegTemplate where
  initialization : String
  startNumber : Option Nat
  media : String
  timeline : Option (List SEntry)
deriving DecidableEq

/-- A `<Representation>` element with the attributes the source reads. -/
structure Representation where
  codecs : String
  audioSamplingRate : Option Nat
  bandwidth : Option Nat
  segTemplate : SegTemplate
deriving DecidableEq

/-- An `<AdaptationSet>` element. -/
structure AdaptationSet where
  contentType : Option String
  representations : List Representation
deriving DecidableEq

/-- A `<Period>` element. -/
structure Period where
  adaptationSets : List AdaptationSet
deriving DecidableEq

/-- A parsed MPD document (the element tree `ElementTree.fromstring`
yields after the namespace strip). -/
structure MPD where
  periods : List Period
deriving DecidableEq

/-! ### `parse_mpd` (lines 1000-1059) -/

/-- Lines 1034-1045: replay the timeline.  `cur` is `cur_time`; a
present `t` attribute resets it, and each entry appends `r+1` start
times, advancing by `d` each. -/
def segTimesGo (cur : Int) : List SEntry → List Int
  | [] => []
  | s :: rest =>
    ((List.range (s.r.getD 0 + 1)).map fun (i : Nat) => s.t.getD cur + (i : Int) * s.d) ++
      segTimesGo (s.t.getD cur + (s.r.getD 0 + 1) * s.d) rest

/-- `seg_time_list` built from a `SegmentTimeline` (starting with
`cur_time = 0`, line 1034). -/
def segTimes (entries : List SEntry) : List Int := segTimesGo 0 entries

/-- Lines 1026-1050: `track_urls` for one representation: the
`initialization` URL first; if a timeline is present, one media URL per
expanded timeline entry, `$Number$` replaced by indices
`start_number, start_number+1, ...`. -/
def repUrls (st : SegTemplate) : List String :=
  let start_number := st.startNumber.getD 1
  match st.timeline with
  | none => [st.initialization]
  | some entries =>
    let seg_time_list := segTimes entries
    let seg_num_list := List.range' start_number seg_time_list.length
    st.initialization ::
      seg_num_list.map (fun n => strReplace st.media "$Number$" (toString n))

/-- Lines 1019-1021: `codec = rep.get('codecs').upper()`; a codec
starting with `MP4A` becomes `AAC`. -/
def normalizeCodec (c : String) : String :=
  let codec := strUpper c
  if strStartsWith codec "MP4A" then "AAC" else codec

/-- Lines 1052-1057: the `AudioTrack` built for one representation
(`audioSamplingRate`/`bandwidth` default to 0 when absent). -/
def repTrack (rep : Representation) : AudioTrack :=
  { codec := normalizeCodec rep.codecs
    sample_rate := rep.audioSamplingRate.getD 0
    bitrate := rep.bandwidth.getD 0
    urls := repUrls rep.segTemplate }

/-- The inner `for rep in adaptation_set.findall('Representation')`
loop: the content-type check (lines 1014-1016) runs inside this loop,
so a non-audio adaptation set only raises if it has a representation. -/
def parseReps (contentType : Option String) :
    List Representation → Except String (List AudioTrack)
  | [] => .ok []
  | rep :: rest =>
    if contentType = some "audio" then
      match parseReps contentType rest with
      | .ok ts => .ok (repTrack rep :: ts)
      | .error e => .error e
    else
      .error "Only supports audio MPDs!"

/-- The `for adaptation_set in period.findall('AdaptationSet')` loop. -/
def parseSets : List AdaptationSet → Except String (List AudioTrack)
  | [] => .ok []
  | a :: rest =>
    match parseReps a.contentType a.representations with
    | .error e => .error e
    | .ok t1 =>
      match parseSets rest with
      | .error e => .error e
      | .ok t2 => .ok (t1 ++ t2)

/-- The `for period in root.findall('Period')` loop. -/
def parsePeriods : List Period → Except String (List AudioTrack)
  | [] => .ok []
  | p :: rest =>
    match parseSets p.adaptationSets with
    | .error e => .error e
    | .ok t1 =>
      match parsePeriods rest with
      | .error e => .error e
      | .ok t2 => .ok (t1 ++ t2)

/-- `parse_mpd` (lines 1000-1059) on an already-parsed element tree. -/
def parse_mpd (mpd : MPD) : Except String (List AudioTrack) :=
  parsePeriods mpd.periods

/-- Spec-side count of timeline entries with repeats expanded: an entry
with repeat count `r` contributes `r + 1` segments; no timeline means
no media segments. -/
def timelineCount : Option (List SEntry) → Nat
  | none => 0
  | some es => (es.map fun s => s.r.getD 0 + 1).sum

/-- All representations of a period in document order. -/
def allReps (p : Period) : List Representation :=
  p.adaptationSets.flatMap fun a => a.representations

/-! ### Format/session resolution (`get_track_info`, lines 826-857) -/

/-- The `self.quality_parse` table (lines 122-129). -/
def quality_parse : QualityEnum → String
  | .MINIMUM => "LOW"
  | .LOW => "LOW"
  | .MEDIUM => "HIGH"
  | .HIGH => "HIGH"
  | .LOSSLESS => "LOSSLESS"
  | .HIFI => "HI_RES"

/-- Lines 826-837: the `format` selection.  `spatial_codecs` is
`codec_options.spatial_codecs`, `prefer_ac4` the module setting. -/
def selectFormat (spatial_codecs prefer_ac4 : Bool) (media_tags : List String)
    (quality_tier : QualityEnum) : Option TFormat :=
  let f : Option TFormat :=
    if spatial_codecs then
      if media_tags.contains "SONY_360RA" then some .r360ra
      else if media_tags.contains "DOLBY_ATMOS" then
        if prefer_ac4 then some .ac4 else some .ac3
      else none
    else none
  if media_tags.contains "HIRES_LOSSLESS" = true ∧ f = none ∧
      quality_tier = QualityEnum.HIFI then
    some .flac_hires
  else f

/-- The session dictionary (lines 839-846). -/
def sessionTable : Option TFormat → SessionType
  | some .flac_hires => .MOBILE_DEFAULT
  | some .r360ra => .MOBILE_DEFAULT
  | some .ac4 => .MOBILE_ATMOS
  | some .ac3 => .TV
  | none => .TV

/-- The `session` variable after the Atmos override (lines 848-852):
with no format selected but `DOLBY_ATMOS` available, the mobile default
session is used so the TV session does not serve Atmos. -/
def chosenSession (spatial_codecs prefer_ac4 : Bool) (media_tags : List String)
    (quality_tier : QualityEnum) : SessionType :=
  let f := selectFormat spatial_codecs prefer_ac4 media_tags quality_tier
  let session := sessionTable f
  if f = none ∧ media_tags.contains "DOLBY_ATMOS" = true then .MOBILE_DEFAULT
  else session

/-- Outcome of lines 826-864: the (possibly degraded) `format`, the
session made `self.session.default` (`none` when the availability check
on line 854 fails, leaving the default untouched), and the quality
string passed to `get_stream_url` on lines 863-864. -/
structure ResolveResult where
  format : Option TFormat
  sessionSet : Option SessionType
  quality : String
deriving DecidableEq

/-- Lines 826-864 end to end: select a format, pick its session, degrade
to no format when the session is not in `available` (the
`self.available_sessions` name list), and compute the quality string
(`'HI_RES_LOSSLESS'` exactly when `format == 'flac_hires'`). -/
def resolve (spatial_codecs prefer_ac4 : Bool) (media_tags : List String)
    (quality_tier : QualityEnum) (available : List String) : ResolveResult :=
  let f := selectFormat spatial_codecs prefer_ac4 media_tags quality_tier
  let session := chosenSession spatial_codecs prefer_ac4 media_tags quality_tier
  if available.contains session.name = true then
    { format := f
      sessionSet := some session
      quality := if f = some .flac_hires then "HI_RES_LOSSLESS"
        else quality_parse quality_tier }
  else
    { format := none
      sessionSet := none
      quality := quality_parse quality_tier }

/-- The spatial formats (all three values the spatial branch can pick). -/
def isSpatialFormat : Option TFormat → Bool
  | some .r360ra => true
  | some .ac4 => true
  | some .ac3 => true
  | _ => false

/-! ### Stream fetch, fallback and region lock
(`get_track_info`, lines 859-907) -/

/-- The decoded manifest envelope: either a DASH document
(`manifestMimeType == 'application/dash+xml'`, base64 payload parsed by
`parse_mpd`) or the direct JSON object `{codecs, urls}`. -/
inductive ManifestEnvelope where
  | dash (mpd : MPD)
  | jsonManifest (codecs : String) (urls : List String)
deriving DecidableEq

/-- The two fields of the external `codec_data` table
(`utils.models`) that `get_track_info` reads; passed in as a function
argument since the table is not part of this repository. -/
structure CodecData where
  spatial : Bool
  proprietary : Bool
deriving DecidableEq

/-- `download_args` (lines 895-907): either a parsed `AudioTrack` (DASH)
or the direct `file_url` plus codec. -/
inductive DownloadArgsK where
  | audioTrackArgs (t : AudioTrack)
  | fileUrl (url : String) (codec : String)
deriving DecidableEq

/-- Lines 872-879 / 887-893: decode one manifest envelope, updating the
`audio_track` and `track_codec` variables.  The DASH branch takes
`parse_mpd(manifest)[0]` (an empty track list is the `IndexError` of
that subscript) and assigns `audio_track`; the JSON branch normalizes
`mp4a*` to `AAC` and uppercases the rest, and leaves `audio_track` at
its previous value (`audio_track` is *not* reset on lines 891-893, so a
re-fetch whose second manifest is JSON keeps the first manifest's
parsed track). -/
def decodeManifest (audio_track : Option AudioTrack) :
    ManifestEnvelope → Except String (Option AudioTrack × String)
  | .dash mpd =>
    match parse_mpd mpd with
    | .error e => .error e
    | .ok [] => .error "list index out of range"
    | .ok (t :: _) => .ok (some t, t.codec)
  | .jsonManifest codecs _ =>
    .ok (audio_track,
      if strContains codecs "mp4a" then "AAC" else strUpper codecs)

/-- Lines 895-907 with the state as at line 895: build `download_args`
from the current `audio_track` (which may still be the first manifest's
track after a DASH-then-JSON re-fetch), the current `track_codec`, and
the latest `manifest` (the MQA-probe block in between only fills
metadata fields, not modelled here).  `manifest['urls'][0]` on an empty
list is an `IndexError`; `manifest['urls']` on a DASH envelope would be
Python's bytes-subscript `TypeError`, unreachable because a DASH decode
always sets `audio_track`. -/
def mkDownloadArgs (audio_track : Option AudioTrack) (track_codec : String)
    (manifest : ManifestEnvelope) : Except String DownloadArgsK :=
  match audio_track with
  | some t => .ok (.audioTrackArgs t)
  | none =>
    match manifest with
    | .jsonManifest _ [] => .error "list index out of range"
    | .jsonManifest _ (u :: _) => .ok (.fileUrl u track_codec)
    | .dash _ => .error "byte indices must be integers or slices, not str"

/-- Lines 866-869: the caught `TidalRequestError` becomes the per-track
error string, rewritten to the region message when it contains
`'Asset is not ready for playback'`. -/
def regionMessage (track_id e : String) : String :=
  if strContains e "Asset is not ready for playback" then
    "Track [" ++ track_id ++ "] is not available in your region"
  else e

/-- Observable outcome of lines 859-907: the per-track error field set
on the returned `TrackInfo` (line 978), the final `track_codec` (its
default is `CodecEnum.FLAC`, line 860), the `download_args`, and the
`(session, quality)` pairs passed to `get_stream_url`, in order. -/
structure StreamSectionResult where
  errorNote : Option String
  track_codec : String
  download_args : Option DownloadArgsK
  fetches : List (SessionType × String)
deriving DecidableEq

/-- Lines 859-907 of `get_track_info`: fetch the manifest (only the
first `get_stream_url` call sits in the `try`), decode it, and when the
codec is not spatial while proprietary codecs are disallowed and the
codec is proprietary, re-fetch once at `'LOSSLESS'` on the same session;
the second decode threads the first decode's `audio_track` through
(only a DASH second manifest overwrites it), and `download_args` is
built from the resulting state and the latest manifest.  Uncaught
exceptions of the section (parse errors, a failing second fetch)
surface as `Except.error`. -/
def streamSection (track_id : String) (sess : SessionType)
    (get_stream_url : SessionType → String → Except String ManifestEnvelope)
    (firstQuality : String) (proprietary_codecs : Bool)
    (codecTable : String → CodecData) : Except String StreamSectionResult :=
  match get_stream_url sess firstQuality with
  | .error e =>
    .ok { errorNote := some (regionMessage track_id e)
          track_codec := "FLAC"
          download_args := none
          fetches := [(sess, firstQuality)] }
  | .ok env =>
    match decodeManifest none env with
    | .error e => .error e
    | .ok (audio_track, track_codec) =>
      if (codecTable track_codec).spatial = false ∧
          proprietary_codecs = false ∧
          (codecTable track_codec).proprietary = true then
        match get_stream_url sess "LOSSLESS" with
        | .error e => .error e
        | .ok env2 =>
          match decodeManifest audio_track env2 with
          | .error e => .error e
          | .ok (audio_track2, track_codec2) =>
            match mkDownloadArgs audio_track2 track_codec2 env2 with
            | .error e => .error e
            | .ok args =>
              .ok { errorNote := none
                    track_codec := track_codec2
                    download_args := some args
                    fetches := [(sess, firstQuality), (sess, "LOSSLESS")] }
      else
        match mkDownloadArgs audio_track track_codec env with
        | .error e => .error e
        | .ok args =>
          .ok { errorNote := none
                track_codec := track_codec
                download_args := some args
                fetches := [(sess, firstQuality)] }

/-! ### Segment assembly (`get_track_download`, lines 1061-1120) -/

inductive DownloadEnum where
  | URL | TEMP_FILE_PATH
deriving DecidableEq

/-- The fields of `TrackDownloadInfo` the function fills. -/
structure TrackDownloadInfo where
  download_type : DownloadEnum
  file_url : Option String
  temp_file_path : Option String
deriving DecidableEq

/-- Observable outcome of `get_track_download`: the returned info, the
paths handed to `silentremove` in order, and whether the
FFmpeg-fallback warning was printed. -/
structure DownloadOutcome where
  info : TrackDownloadInfo
  removed : List String
  warned : Bool
deriving DecidableEq

/-- `get_track_download` (lines 1061-1120) with its file-system effects
explicit.  `temp_locations` are the per-segment temp files the loop
downloaded, `merged_temp_location`/`output_location` the two names from
`create_temp_filename`, and `remuxOk` whether the FFmpeg invocation on
lines 1104-1106 succeeds.  On success the merged file and every segment
file are removed (lines 1107-1109); when FFmpeg raises, the `except`
branch (lines 1110-1115) returns the merged file with a warning and
removes nothing. -/
def get_track_download (file_url : Option String)
    (temp_locations : List String)
    (merged_temp_location output_location : String)
    (remuxOk : Bool) : DownloadOutcome :=
  match file_url with
  | some u =>
    { info := { download_type := .URL, file_url := some u, temp_file_path := none }
      removed := []
      warned := false }
  | none =>
    if remuxOk then
      { info := { download_type := .TEMP_FILE_PATH, file_url := none
                  temp_file_path := some output_location }
        removed := merged_temp_location :: temp_locations
        warned := false }
    else
      { info := { download_type := .TEMP_FILE_PATH, file_url := none
                  temp_file_path := some merged_temp_location }
        removed := []
        warned := true }

/-! ### Parser lemmas -/

theorem segTimesGo_length (es : List SEntry) :
    ∀ cur, (segTimesGo cur es).length = (es.map fun s => s.r.getD 0 + 1).sum := by
  induction es with
  | nil => intro cur; simp [segTimesGo]
  | cons s rest ih =>
    intro cur
    rw [segTimesGo, List.length_append, List.length_map, List.length_range,
      ih, List.map_cons, List.sum_cons]

theorem segTimes_length (es : List SEntry) :
    (segTimes es).length = (es.map fun s => s.r.getD 0 + 1).sum :=
  segTimesGo_length es 0

theorem repUrls_eq (st : SegTemplate) :
    repUrls st = st.initialization ::
      (List.range' (st.startNumber.getD 1) (timelineCount st.timeline)).map
        (fun n => strReplace st.media "$Number$" (toString n)) := by
  unfold repUrls timelineCount
  cases st.timeline with
  | none => simp
  | some es => simp [segTimes_length]

theorem parseReps_audio (reps : List Representation) :
    parseReps (some "audio") reps = .ok (reps.map repTrack) := by
  induction reps with
  | nil => rfl
  | cons rep rest ih => simp [parseReps, ih]

theorem parseSets_audio (sets : List AdaptationSet)
    (h : ∀ a ∈ sets, a.contentType = some "audio") :
    parseSets sets =
      .ok ((sets.flatMap fun a => a.representations).map repTrack) := by
  induction sets with
  | nil => rfl
  | cons a rest ih =>
    have ha := h a (by simp)
    have hrest := ih fun b hb => h b (by simp [hb])
    simp [parseSets, ha, parseReps_audio, hrest]

/-- Scenario D: one period, one audio adaptation set, one FLAC
representation whose template has `startNumber="1"` and a single
`S t="0" d="1000" r="2"` entry. -/
def scenarioD_rep : Representation :=
  { codecs := "flac"
    audioSamplingRate := some 44100
    bandwidth := some 1000000
    segTemplate :=
      { initialization := "http://x/init.mp4"
        startNumber := some 1
        media := "http://x/seg_$Number$.mp4"
        timeline := some [{ t := some 0, r := some 2, d := 1000 }] } }

def scenarioD_period : Period :=
  { adaptationSets := [{ contentType := some "audio"
                         representations := [scenarioD_rep] }] }

def scenarioD_mpd : MPD := { periods := [scenarioD_period] }

/-- C1: for every well-formed single-period audio manifest, `parse_mpd`
returns one rendition per representation in document order; each
rendition's URL list has the initialization URL at element 0 followed by
one media URL per timeline entry with repeats expanded (repeat count `r`
contributes `r+1` segments), the indices substituted for `$Number$`
running from the declared start-number (default 1) upwards, one per
entry. -/
theorem c1_parse_single_period (mpd : MPD) (p : Period)
    (hp : mpd.periods = [p])
    (haudio : ∀ a ∈ p.adaptationSets, a.contentType = some "audio") :
    parse_mpd mpd = .ok ((allReps p).map repTrack)
    ∧ ∀ rep ∈ allReps p,
        (repTrack rep).urls =
          rep.segTemplate.initialization ::
            (List.range' (rep.segTemplate.startNumber.getD 1)
                (timelineCount rep.segTemplate.timeline)).map
              (fun n => strReplace rep.segTemplate.media "$Number$" (toString n))
        ∧ (repTrack rep).urls.length =
            timelineCount rep.segTemplate.timeline + 1 := by
  constructor
  · unfold parse_mpd
    rw [hp]
    simp [parsePeriods, parseSets_audio p.adaptationSets haudio, allReps]
  · intro rep _
    refine ⟨by simp [repTrack, repUrls_eq], ?_⟩
    simp [repTrack, repUrls_eq]

/-- Witness for C1 at Scenario D: the parsed manifest has exactly the
initialization URL plus media URLs numbered 1, 2, 3. -/
theorem c1_witness :
    parse_mpd scenarioD_mpd =
      .ok [{ codec := "FLAC"
             sample_rate := 44100
             bitrate := 1000000
             urls := ["http://x/init.mp4", "http://x/seg_1.mp4",
                      "http://x/seg_2.mp4", "http://x/seg_3.mp4"] }] := by
  have h := c1_parse_single_period scenarioD_mpd scenarioD_period rfl
    (by intro a ha; simp [scenarioD_period] at ha; simp [ha])
  exact h.1.trans (by rfl)

/-! ### Error characterization of `parse_mpd` -/

theorem parseReps_error_iff (ct : Option String) (reps : List Representation) :
    (∃ e, parseReps ct reps = .error e) ↔
      (¬ ct = some "audio" ∧ reps ≠ []) := by
  cases reps with
  | nil => simp [parseReps]
  | cons rep rest =>
    by_cases h : ct = some "audio"
    · subst h
      simp [parseReps_audio]
    · simp [parseReps, h]

theorem parseReps_error_msg (ct : Option String) (reps : List Representation)
    (e : String) (he : parseReps ct reps = .error e) :
    e = "Only supports audio MPDs!" := by
  induction reps with
  | nil => simp [parseReps] at he
  | cons rep rest ih =>
    rw [parseReps] at he
    by_cases h : ct = some "audio"
    · simp only [if_pos h] at he
      cases hr : parseReps ct rest with
      | ok ts => rw [hr] at he; simp at he
      | error e2 =>
        rw [hr] at he
        simp at he
        subst he
        exact ih hr
    · simp [h] at he
      exact he.symm

theorem parseSets_error_iff (sets : List AdaptationSet) :
    (∃ e, parseSets sets = .error e) ↔
      ∃ a ∈ sets, ¬ a.contentType = some "audio" ∧ a.representations ≠ [] := by
  induction sets with
  | nil => simp [parseSets]
  | cons a rest ih =>
    cases hr : parseReps a.contentType a.representations with
    | error e =>
      have hbad := (parseReps_error_iff a.contentType a.representations).mp ⟨e, hr⟩
      simp only [parseSets, hr]
      constructor
      · intro _; exact ⟨a, by simp, hbad⟩
      · intro _; exact ⟨e, rfl⟩
    | ok t1 =>
      have hgood := (parseReps_error_iff a.contentType a.representations).not.mp
        (by rw [hr]; simp)
      cases hs : parseSets rest with
      | error e2 =>
        have hex := ih.mp ⟨e2, hs⟩
        simp only [parseSets, hr, hs]
        constructor
        · intro _
          obtain ⟨b, hb, hprop⟩ := hex
          exact ⟨b, by simp [hb], hprop⟩
        · intro _; exact ⟨e2, rfl⟩
      | ok t2 =>
        simp only [parseSets, hr, hs]
        constructor
        · rintro ⟨e, he⟩; simp at he
        · rintro ⟨b, hb, hprop⟩
          rcases List.mem_cons.mp hb with hba | hbr
          · exact absurd (hba ▸ hprop) hgood
          · obtain ⟨e, he⟩ := ih.mpr ⟨b, hbr, hprop⟩
            rw [he] at hs; simp at hs


theorem parseSets_error_msg (sets : List AdaptationSet) (e : String)
    (he : parseSets sets = .error e) : e = "Only supports audio MPDs!" := by
  induction sets with
  | nil => simp [parseSets] at he
  | cons a rest ih =>
    rw [parseSets] at he
    cases hr : parseReps a.contentType a.representations with
    | error e1 =>
      rw [hr] at he
      simp at he
      exact he ▸ parseReps_error_msg a.contentType a.representations e1 hr
    | ok t1 =>
      rw [hr] at he
      cases hs : parseSets rest with
      | error e2 => rw [hs] at he; simp at he; subst he; exact ih hs
      | ok t2 => rw [hs] at he; simp at he

theorem parsePeriods_error_iff (periods : List Period) :
    (∃ e, parsePeriods periods = .error e) ↔
      ∃ p ∈ periods, ∃ a ∈ p.adaptationSets,
        ¬ a.contentType = some "audio" ∧ a.representations ≠ [] := by
  induction periods with
  | nil => simp [parsePeriods]
  | cons p rest ih =>
    cases hr : parseSets p.adaptationSets with
    | error e =>
      have hbad := (parseSets_error_iff p.adaptationSets).mp ⟨e, hr⟩
      simp only [parsePeriods, hr]
      constructor
      · intro _; exact ⟨p, by simp, hbad⟩
      · intro _; exact ⟨e, rfl⟩
    | ok t1 =>
      have hgood := (parseSets_error_iff p.adaptationSets).not.mp
        (by rw [hr]; simp)
      cases hs : parsePeriods rest with
      | error e2 =>
        have hex := ih.mp ⟨e2, hs⟩
        simp only [parsePeriods, hr, hs]
        constructor
        · intro _
          obtain ⟨q, hq, hprop⟩ := hex
          exact ⟨q, by simp [hq], hprop⟩
        · intro _; exact ⟨e2, rfl⟩
      | ok t2 =>
        simp only [parsePeriods, hr, hs]
        constructor
        · rintro ⟨e, he⟩; simp at he
        · rintro ⟨q, hq, hprop⟩
          rcases List.mem_cons.mp hq with hqp | hqr
          · exact absurd (hqp ▸ hprop) hgood
          · obtain ⟨e, he⟩ := ih.mpr ⟨q, hqr, hprop⟩
            rw [he] at hs; simp at hs

theorem parsePeriods_error_msg (periods : List Period) (e : String)
    (he : parsePeriods periods = .error e) : e = "Only supports audio MPDs!" := by
  induction periods with
  | nil => simp [parsePeriods] at he
  | cons p rest ih =>
    rw [parsePeriods] at he
    cases hr : parseSets p.adaptationSets with
    | error e1 =>
      rw [hr] at he
      simp at he
      exact he ▸ parseSets_error_msg p.adaptationSets e1 hr
    | ok t1 =>
      rw [hr] at he
      cases hs : parsePeriods rest with
      | error e2 => rw [hs] at he; simp at he; subst he; exact ih hs
      | ok t2 => rw [hs] at he; simp at he

/-- A manifest with one period and no adaptation sets at all: it
contains no audio adaptation set, yet the parser returns an empty
rendition list instead of failing. -/
def emptyPeriodMpd : MPD := { periods := [{ adaptationSets := [] }] }

/-- C6 counterexample: a document that contains no audio adaptation set
on which `parse_mpd` succeeds (returning `[]`) instead of failing, so
"fails ... when it contains no audio adaptation set" is false as
stated. -/
theorem c6_counterexample : parse_mpd emptyPeriodMpd = .ok [] := rfl

/-- C6 (amended): within well-formed documents, `parse_mpd` fails (with
the fixed message `'Only supports audio MPDs!'`) exactly when some
adaptation set that carries at least one representation is non-audio;
a document without any representation-bearing non-audio adaptation set
— in particular one with no audio adaptation set at all — returns a
(possibly empty) rendition list instead of failing. -/
theorem c6_parse_error_characterization (mpd : MPD) :
    ((∃ e, parse_mpd mpd = .error e) ↔
      ∃ p ∈ mpd.periods, ∃ a ∈ p.adaptationSets,
        ¬ a.contentType = some "audio" ∧ a.representations ≠ [])
    ∧ ∀ e, parse_mpd mpd = .error e → e = "Only supports audio MPDs!" :=
  ⟨parsePeriods_error_iff mpd.periods,
   fun e he => parsePeriods_error_msg mpd.periods e he⟩

def videoSet : AdaptationSet :=
  { contentType := some "video"
    representations := [{ codecs := "avc1"
                          audioSamplingRate := none
                          bandwidth := none
                          segTemplate := { initialization := "i"
                                           startNumber := none
                                           media := "m"
                                           timeline := none } }] }

def videoMpd : MPD := { periods := [{ adaptationSets := [videoSet] }] }

/-- Witness for C6 (amended): a multiplexed manifest (a video adaptation
set with a representation) makes `parse_mpd` fail with the fixed
message. -/
theorem c6_witness : parse_mpd videoMpd = .error "Only supports audio MPDs!" := by
  have h := c6_parse_error_characterization videoMpd
  obtain ⟨e, he⟩ := h.1.mpr
    ⟨{ adaptationSets := [videoSet] }, by simp [videoMpd], videoSet, by simp,
      by simp [videoSet], by simp [videoSet]⟩
  exact (h.2 e he) ▸ he

/-! ### Resolver theorems -/

/-- With spatial codecs disallowed only `none` or `flac_hires` can come
out of the format selection. -/
theorem selectFormat_false (prefer_ac4 : Bool) (tags : List String)
    (tier : QualityEnum) :
    selectFormat false prefer_ac4 tags tier = none ∨
      selectFormat false prefer_ac4 tags tier = some .flac_hires := by
  unfold selectFormat
  simp only [Bool.false_eq_true, if_false]
  split
  · right; rfl
  · left; rfl

/-- C2 counterexample: with both spatial tags present (and spatial
codecs allowed) the source picks `'360ra'` — the `SONY_360RA` check
comes first (line 828) — not the Atmos variant chosen by `prefer_ac4`,
so "the object-based variant wins" is false as stated. -/
theorem c2_counterexample :
    selectFormat true false ["SONY_360RA", "DOLBY_ATMOS"] QualityEnum.LOSSLESS
        = some TFormat.r360ra
    ∧ ¬ selectFormat true false ["SONY_360RA", "DOLBY_ATMOS"] QualityEnum.LOSSLESS
        = some TFormat.ac3
    ∧ ¬ selectFormat true true ["SONY_360RA", "DOLBY_ATMOS"] QualityEnum.LOSSLESS
        = some TFormat.ac4 := by
  decide

/-- C2 (amended): with spatial codecs allowed the resolver first checks
the non-object-based `SONY_360RA` tag and picks the legacy spatial
rendition; only if that tag is absent does it check `DOLBY_ATMOS` and
pick `ac4`/`ac3` per the `prefer_ac4` flag — when both tags are present
the legacy spatial rendition wins. -/
theorem c2_spatial_tag_order (prefer_ac4 : Bool) (tags : List String)
    (tier : QualityEnum) :
    ("SONY_360RA" ∈ tags →
      selectFormat true prefer_ac4 tags tier = some TFormat.r360ra)
    ∧ ("SONY_360RA" ∉ tags → "DOLBY_ATMOS" ∈ tags →
      selectFormat true prefer_ac4 tags tier =
        some (if prefer_ac4 then TFormat.ac4 else TFormat.ac3)) := by
  constructor
  · intro h
    simp [selectFormat, h]
  · intro h1 h2
    cases prefer_ac4 <;> simp [selectFormat, h1, h2]

/-- Witness for C2 (amended). -/
theorem c2_witness :
    selectFormat true false ["SONY_360RA"] QualityEnum.HIFI = some TFormat.r360ra
    ∧ selectFormat true true ["DOLBY_ATMOS"] QualityEnum.HIFI = some TFormat.ac4 := by
  refine ⟨(c2_spatial_tag_order false ["SONY_360RA"] .HIFI).1 (by decide), ?_⟩
  have h := (c2_spatial_tag_order true ["DOLBY_ATMOS"] .HIFI).2 (by decide) (by decide)
  simpa using h

/-- With spatial codecs allowed and `DOLBY_ATMOS` present, the selected
format is one of the three spatial formats. -/
theorem selectFormat_atmos_spatial (prefer_ac4 : Bool) (tags : List String)
    (tier : QualityEnum) (h : "DOLBY_ATMOS" ∈ tags) :
    isSpatialFormat (selectFormat true prefer_ac4 tags tier) = true := by
  by_cases hS : "SONY_360RA" ∈ tags <;> cases prefer_ac4 <;>
    simp [selectFormat, hS, h, isSpatialFormat]

/-- C3: with the `DOLBY_ATMOS` tag and spatial codecs allowed, the
resolver never ends at the direct (tier-table) formats while the
selected spatial format's session is available; when that session is
unavailable, the format degrades to `none`, the default session is left
as the baseline (not re-assigned), and the quality string falls back to
the tier table. -/
theorem c3_atmos_never_direct (prefer_ac4 : Bool) (tags : List String)
    (tier : QualityEnum) (available : List String)
    (h : "DOLBY_ATMOS" ∈ tags) :
    ((chosenSession true prefer_ac4 tags tier).name ∈ available →
      isSpatialFormat (resolve true prefer_ac4 tags tier available).format = true)
    ∧ ((chosenSession true prefer_ac4 tags tier).name ∉ available →
      (resolve true prefer_ac4 tags tier available).format = none
      ∧ (resolve true prefer_ac4 tags tier available).sessionSet = none
      ∧ (resolve true prefer_ac4 tags tier available).quality = quality_parse tier) := by
  constructor
  · intro hav
    have hs := selectFormat_atmos_spatial prefer_ac4 tags tier h
    simp [resolve, hav, hs]
  · intro hav
    simp [resolve, hav]

/-- Witness for C3: an Atmos track on the full session list keeps a
spatial format; on a TV-only deployment (`enable_mobile` off) with
`prefer_ac4` the selection degrades to no format, untouched session,
tier-table quality. -/
theorem c3_witness :
    isSpatialFormat (resolve true true ["DOLBY_ATMOS"] QualityEnum.LOSSLESS
        ["TV", "MOBILE_DEFAULT", "MOBILE_ATMOS"]).format = true
    ∧ (resolve true true ["DOLBY_ATMOS"] QualityEnum.LOSSLESS ["TV"]).format = none
    ∧ (resolve true true ["DOLBY_ATMOS"] QualityEnum.LOSSLESS ["TV"]).sessionSet = none
    ∧ (resolve true true ["DOLBY_ATMOS"] QualityEnum.LOSSLESS ["TV"]).quality
        = quality_parse QualityEnum.LOSSLESS := by
  refine ⟨?_, ?_⟩
  · exact (c3_atmos_never_direct true ["DOLBY_ATMOS"] QualityEnum.LOSSLESS
      ["TV", "MOBILE_DEFAULT", "MOBILE_ATMOS"] (by decide)).1 (by decide)
  · exact (c3_atmos_never_direct true ["DOLBY_ATMOS"] QualityEnum.LOSSLESS
      ["TV"] (by decide)).2 (by decide)

/-- C4: the tier table maps Minimum/Low to `LOW`, Medium/High to `HIGH`,
Lossless to `LOSSLESS`, HiFi to `HI_RES`; the requested string is
`HI_RES_LOSSLESS` exactly when the (non-degraded) format is
`flac_hires`; and a HiFi request with the `HIRES_LOSSLESS` tag and
spatial disallowed resolves to `flac_hires` with quality string
`HI_RES_LOSSLESS` whenever the mobile default session is available. -/
theorem c4_quality_string :
    (quality_parse .MINIMUM = "LOW" ∧ quality_parse .LOW = "LOW"
      ∧ quality_parse .MEDIUM = "HIGH" ∧ quality_parse .HIGH = "HIGH"
      ∧ quality_parse .LOSSLESS = "LOSSLESS" ∧ quality_parse .HIFI = "HI_RES")
    ∧ (∀ (sc pa : Bool) (tags : List String) (tier : QualityEnum)
        (available : List String),
        (resolve sc pa tags tier available).quality =
          if (resolve sc pa tags tier available).format = some TFormat.flac_hires
          then "HI_RES_LOSSLESS" else quality_parse tier)
    ∧ (∀ (pa : Bool) (available : List String),
        "MOBILE_DEFAULT" ∈ available →
        (resolve false pa ["HIRES_LOSSLESS"] QualityEnum.HIFI available).format
            = some TFormat.flac_hires
        ∧ (resolve false pa ["HIRES_LOSSLESS"] QualityEnum.HIFI available).quality
            = "HI_RES_LOSSLESS") := by
  refine ⟨⟨rfl, rfl, rfl, rfl, rfl, rfl⟩, ?_, ?_⟩
  · intro sc pa tags tier available
    by_cases hav : (chosenSession sc pa tags tier).name ∈ available
    · simp [resolve, hav]
    · simp [resolve, hav]
  · intro pa available hav
    have hsel : selectFormat false pa ["HIRES_LOSSLESS"] QualityEnum.HIFI
        = some TFormat.flac_hires := by
      cases pa <;> rfl
    have hcs : chosenSession false pa ["HIRES_LOSSLESS"] QualityEnum.HIFI
        = SessionType.MOBILE_DEFAULT := by
      cases pa <;> rfl
    simp [resolve, hsel, hcs, SessionType.name, hav]

/-- Witness for C4 (Scenario A with the standard session list). -/
theorem c4_witness :
    (resolve false false ["HIRES_LOSSLESS"] QualityEnum.HIFI
        ["TV", "MOBILE_DEFAULT", "MOBILE_ATMOS"]).format = some TFormat.flac_hires
    ∧ (resolve false false ["HIRES_LOSSLESS"] QualityEnum.HIFI
        ["TV", "MOBILE_DEFAULT", "MOBILE_ATMOS"]).quality = "HI_RES_LOSSLESS" :=
  c4_quality_string.2.2 false ["TV", "MOBILE_DEFAULT", "MOBILE_ATMOS"] (by decide)

/-- C10 counterexample: an Atmos track with `prefer_ac4` on a TV-only
deployment — the selected `ac4` format's session is unavailable, the
format degrades to `none`, but the session default is left untouched
(`sessionSet = none`), not switched to the mobile default session. -/
theorem c10_counterexample :
    (resolve true true ["DOLBY_ATMOS"] QualityEnum.HIFI ["TV"]).sessionSet = none
    ∧ ¬ (resolve true true ["DOLBY_ATMOS"] QualityEnum.HIFI ["TV"]).sessionSet
        = some SessionType.MOBILE_DEFAULT
    ∧ (resolve true true ["DOLBY_ATMOS"] QualityEnum.HIFI ["TV"]).format = none := by
  decide

/-- C10 (amended): for a `DOLBY_ATMOS` track the switch to the mobile
default session happens exactly on the spatial-disallowed path (where
no spatial format is selected before the availability check); when the
degrade is instead caused by the selected format's session being
unavailable, the session default is left unchanged rather than switched. -/
theorem c10_session_switch (prefer_ac4 : Bool) (tags : List String)
    (tier : QualityEnum) (available : List String)
    (h : "DOLBY_ATMOS" ∈ tags) :
    chosenSession false prefer_ac4 tags tier = SessionType.MOBILE_DEFAULT
    ∧ ("MOBILE_DEFAULT" ∈ available →
        (resolve false prefer_ac4 tags tier available).sessionSet
          = some SessionType.MOBILE_DEFAULT)
    ∧ ((chosenSession true prefer_ac4 tags tier).name ∉ available →
        (resolve true prefer_ac4 tags tier available).sessionSet = none) := by
  have h1 : chosenSession false prefer_ac4 tags tier = SessionType.MOBILE_DEFAULT := by
    rcases selectFormat_false prefer_ac4 tags tier with hf | hf <;>
      simp [chosenSession, hf, h, sessionTable]
  refine ⟨h1, ?_, ?_⟩
  · intro hav
    simp [resolve, h1, SessionType.name, hav]
  · intro hav
    simp [resolve, hav]

/-- Witness for C10 (amended). -/
theorem c10_witness :
    chosenSession false false ["DOLBY_ATMOS"] QualityEnum.LOSSLESS
        = SessionType.MOBILE_DEFAULT
    ∧ (resolve false false ["DOLBY_ATMOS"] QualityEnum.LOSSLESS
        ["TV", "MOBILE_DEFAULT", "MOBILE_ATMOS"]).sessionSet
        = some SessionType.MOBILE_DEFAULT
    ∧ (resolve true true ["DOLBY_ATMOS"] QualityEnum.LOSSLESS ["TV"]).sessionSet
        = none := by
  refine ⟨(c10_session_switch false ["DOLBY_ATMOS"] QualityEnum.LOSSLESS []
      (by decide)).1, ?_, ?_⟩
  · exact (c10_session_switch false ["DOLBY_ATMOS"] QualityEnum.LOSSLESS
      ["TV", "MOBILE_DEFAULT", "MOBILE_ATMOS"] (by decide)).2.1 (by decide)
  · exact (c10_session_switch true ["DOLBY_ATMOS"] QualityEnum.LOSSLESS
      ["TV"] (by decide)).2.2 (by decide)

/-! ### Stream-section theorems -/

/-- First manifest of the C5 counterexample: a segmented (DASH)
manifest whose single representation carries the proprietary `mqa`
codec. -/
def c5x_mpd : MPD :=
  { periods := [{ adaptationSets := [{ contentType := some "audio"
                                       representations := [{
        codecs := "mqa"
        audioSamplingRate := some 44100
        bandwidth := some 100000
        segTemplate := { initialization := "http://x/d_init.mp4"
                         startNumber := none
                         media := "http://x/d_$Number$.mp4"
                         timeline := none } }] }] }] }

def c5x_gsu : SessionType → String → Except String ManifestEnvelope :=
  fun _ q =>
    if q = "LOW" then .ok (.dash c5x_mpd)
    else if q = "LOSSLESS" then .ok (.jsonManifest "flac" ["http://x/l.flac"])
    else .error "unexpected quality"

def c5_table : String → CodecData :=
  fun c =>
    if c = "MQA" then { spatial := false, proprietary := true }
    else { spatial := false, proprietary := false }

/-- C5 counterexample: a proprietary DASH first manifest re-fetched at
`LOSSLESS` into a direct-URL (JSON) manifest.  The second fetch+parse
does happen, but the fetched manifest is *not* discarded: `audio_track`
is never reset on the JSON branch (lines 891-893), so the returned
download arguments still carry the first manifest's parsed segment list
(codec `MQA`, the first manifest's URL) instead of the second
manifest's direct URL, refuting "the fetched manifest is discarded". -/
theorem c5_counterexample :
    streamSection "9" SessionType.TV c5x_gsu "LOW" false c5_table
      = .ok { errorNote := none
              track_codec := "FLAC"
              download_args := some (.audioTrackArgs
                { codec := "MQA"
                  sample_rate := 44100
                  bitrate := 100000
                  urls := ["http://x/d_init.mp4"] })
              fetches := [(SessionType.TV, "LOW"), (SessionType.TV, "LOSSLESS")] }
    ∧ ¬ (streamSection "9" SessionType.TV c5x_gsu "LOW" false c5_table
        = .ok { errorNote := none
                track_codec := "FLAC"
                download_args := some (.fileUrl "http://x/l.flac" "FLAC")
                fetches := [(SessionType.TV, "LOW"),
                            (SessionType.TV, "LOSSLESS")] }) := by
  refine ⟨rfl, fun h => ?_⟩
  have e1 : streamSection "9" SessionType.TV c5x_gsu "LOW" false c5_table
      = .ok { errorNote := none
              track_codec := "FLAC"
              download_args := some (.audioTrackArgs
                { codec := "MQA"
                  sample_rate := 44100
                  bitrate := 100000
                  urls := ["http://x/d_init.mp4"] })
              fetches := [(SessionType.TV, "LOW"), (SessionType.TV, "LOSSLESS")] } := rfl
  exact absurd (Except.ok.inj (e1.symm.trans h)) (by decide)

/-- C5 (amended): when the fetched manifest's codec is not spatial while
proprietary codecs are disallowed and the codec is proprietary, the
section performs exactly one more fetch+parse cycle, at the `LOSSLESS`
quality string, on the same session, for every requested tier
(including tiers whose quality string is below `LOSSLESS`); the final
codec comes from the second manifest, while the download arguments are
built from the threaded state — the second decode overwrites
`audio_track` only when the second manifest is segmented, so a DASH
first manifest is not discarded when the re-fetched manifest is a
direct-URL one. -/
theorem c5_proprietary_refetch (track_id : String) (sess : SessionType)
    (gsu : SessionType → String → Except String ManifestEnvelope)
    (tier : QualityEnum) (codecTable : String → CodecData)
    (envA envB : ManifestEnvelope) (audioA audioB : Option AudioTrack)
    (cA cB : String) (args : DownloadArgsK)
    (h1 : gsu sess (quality_parse tier) = .ok envA)
    (h2 : decodeManifest none envA = .ok (audioA, cA))
    (hsp : (codecTable cA).spatial = false)
    (hpr : (codecTable cA).proprietary = true)
    (h3 : gsu sess "LOSSLESS" = .ok envB)
    (h4 : decodeManifest audioA envB = .ok (audioB, cB))
    (h5 : mkDownloadArgs audioB cB envB = .ok args) :
    streamSection track_id sess gsu (quality_parse tier) false codecTable
      = .ok { errorNote := none
              track_codec := cB
              download_args := some args
              fetches := [(sess, quality_parse tier), (sess, "LOSSLESS")] } := by
  simp [streamSection, h1, h2, hsp, hpr, h3, h4, h5]

def c5_gsu : SessionType → String → Except String ManifestEnvelope :=
  fun _ q =>
    if q = "LOW" then .ok (.jsonManifest "MQA" ["http://x/m.flac"])
    else if q = "LOSSLESS" then .ok (.jsonManifest "flac" ["http://x/l.flac"])
    else .error "unexpected quality"

/-- Witness for C5 (amended): a Minimum-tier request (quality string
`LOW`, below Lossless) whose first manifest is proprietary MQA is
re-fetched at `LOSSLESS` on the same session. -/
theorem c5_witness :
    streamSection "7" SessionType.TV c5_gsu (quality_parse QualityEnum.MINIMUM)
        false c5_table
      = .ok { errorNote := none
              track_codec := "FLAC"
              download_args := some (.fileUrl "http://x/l.flac" "FLAC")
              fetches := [(SessionType.TV, quality_parse QualityEnum.MINIMUM),
                          (SessionType.TV, "LOSSLESS")] } :=
  c5_proprietary_refetch "7" SessionType.TV c5_gsu QualityEnum.MINIMUM c5_table
    (.jsonManifest "MQA" ["http://x/m.flac"])
    (.jsonManifest "flac" ["http://x/l.flac"])
    none none "MQA" "FLAC"
    (.fileUrl "http://x/l.flac" "FLAC")
    rfl rfl rfl rfl rfl rfl rfl

/-- C9: a `TidalRequestError` whose text contains
`'Asset is not ready for playback'` does not abort the resolution — the
section still returns (`Except.ok`), records the region message as the
per-track error, and leaves no download arguments (an empty rendition
set), after the single attempted fetch. -/
theorem c9_region_lock (track_id : String) (sess : SessionType)
    (gsu : SessionType → String → Except String ManifestEnvelope)
    (quality : String) (proprietary_codecs : Bool)
    (codecTable : String → CodecData) (e : String)
    (h1 : gsu sess quality = .error e)
    (h2 : strContains e "Asset is not ready for playback" = true) :
    streamSection track_id sess gsu quality proprietary_codecs codecTable
      = .ok { errorNote :=
                some ("Track [" ++ track_id ++ "] is not available in your region")
              track_codec := "FLAC"
              download_args := none
              fetches := [(sess, quality)] } := by
  simp [streamSection, h1, regionMessage, h2]

def c9_gsu : SessionType → String → Except String ManifestEnvelope :=
  fun _ _ => .error "Asset is not ready for playback"

/-- Witness for C9. -/
theorem c9_witness :
    streamSection "92265335" SessionType.TV c9_gsu "LOSSLESS" true
        (fun _ => { spatial := false, proprietary := false })
      = .ok { errorNote := some "Track [92265335] is not available in your region"
              track_codec := "FLAC"
              download_args := none
              fetches := [(SessionType.TV, "LOSSLESS")] } :=
  c9_region_lock "92265335" SessionType.TV c9_gsu "LOSSLESS" true
    (fun _ => { spatial := false, proprietary := false })
    "Asset is not ready for playback" rfl rfl

/-- C7: every rendition parsed from a DASH manifest carries the
normalized codec (uppercased, with the vendor `MP4A` tag mapped to
`AAC`); and the direct-JSON manifest
`{"codecs":"mp4a.40.2","urls":["http://x/a.m4a"]}` yields codec `AAC`
with the single URL handed over as `file_url`, which
`get_track_download` returns directly as a URL download with no
temporary files and no assembly. -/
theorem c7_codec_normalized :
    (∀ rep : Representation, (repTrack rep).codec =
        (if strStartsWith (strUpper rep.codecs) "MP4A" then "AAC"
         else strUpper rep.codecs))
    ∧ streamSection "42" SessionType.TV
        (fun _ _ => .ok (.jsonManifest "mp4a.40.2" ["http://x/a.m4a"]))
        "LOSSLESS" false (fun _ => { spatial := false, proprietary := false })
        = .ok { errorNote := none
                track_codec := "AAC"
                download_args := some (.fileUrl "http://x/a.m4a" "AAC")
                fetches := [(SessionType.TV, "LOSSLESS")] }
    ∧ get_track_download (some "http://x/a.m4a") [] "merged.mp4" "out.m4a" true
        = { info := { download_type := .URL
                      file_url := some "http://x/a.m4a"
                      temp_file_path := none }
            removed := []
            warned := false } :=
  ⟨fun _ => rfl, rfl, rfl⟩

/-- Witness for C7 at a concrete DASH representation. -/
theorem c7_witness :
    (repTrack { codecs := "mp4a.40.2"
                audioSamplingRate := none
                bandwidth := none
                segTemplate := { initialization := "i"
                                 startNumber := none
                                 media := "m"
                                 timeline := none } }).codec = "AAC" :=
  (c7_codec_normalized.1 _).trans rfl

/-- C8 counterexample: on the remux-failure path `get_track_download`
removes nothing — in particular the per-segment temporary files are not
deleted — refuting "segment-file cleanup occurs in all cases". -/
theorem c8_counterexample :
    (get_track_download none ["seg0.mp4", "seg1.mp4"] "merged.mp4" "out.flac"
        false).removed = []
    ∧ ¬ "seg0.mp4" ∈ (get_track_download none ["seg0.mp4", "seg1.mp4"]
        "merged.mp4" "out.flac" false).removed
    ∧ (get_track_download none ["seg0.mp4", "seg1.mp4"] "merged.mp4" "out.flac"
        false).info.temp_file_path = some "merged.mp4"
    ∧ (get_track_download none ["seg0.mp4", "seg1.mp4"] "merged.mp4" "out.flac"
        false).warned = true := by
  decide

/-- C8 (amended): when the remux step fails, the concatenated
intermediate file is returned as a degraded result with a warning and
is not deleted, and the per-segment temporary files are not deleted
either; the merged intermediate and the segment files are removed only
on remux success. -/
theorem c8_remux_failure (temp_locations : List String)
    (merged_temp_location output_location : String) :
    get_track_download none temp_locations merged_temp_location
        output_location false
      = { info := { download_type := .TEMP_FILE_PATH
                    file_url := none
                    temp_file_path := some merged_temp_location }
          removed := []
          warned := true }
    ∧ get_track_download none temp_locations merged_temp_location
        output_location true
      = { info := { download_type := .TEMP_FILE_PATH
                    file_url := none
                    temp_file_path := some output_location }
          removed := merged_temp_location :: temp_locations
          warned := false } :=
  ⟨rfl, rfl⟩

end Tidal
